import Mathlib

/-!
Verification of the transactional order-processing core of `go-sql-store`
(retrying transaction wrapper, error classification, inventory locking,
cursor pagination), as a shallow embedding of the Go sources:

* `internal/database/errors.go` — `ClassifyError`, `IsRetryable`
* `internal/database/tx.go`     — `WithRetry` (the Retrying Executor)
* `internal/store/products.go`  — `ReserveStock`, `ReserveStockNoWait`,
  `UpdateStockOptimistic`, `DecrementStock`
* `internal/store/pagination.go` — `EncodeCursor`, `DecodeCursor`
* `internal/store/orders.go`    — `CreateOrder` body, `ListOrdersCursor`

Go `error` values are modelled by an explicit inductive; SQL statements by
pure functions over row lists, with the schema CHECK constraints of the
migrations (`stock_quantity >= 0`, `quantity > 0`, `total_amount >= 0`,
`UNIQUE(order_id, product_id)`) applied where an UPDATE/INSERT could
violate them.  `time.Time` instants are nanosecond `Nat` counts.
-/

namespace GoSqlStore

/-- Go `error` values reachable in this code base: `*pq.Error` with an
SQLSTATE code, `sql.ErrNoRows`, an `errors.New` sentinel carrying its
message, and a `fmt.Errorf` wrapper (`%w`) whose rendered message was
computed at wrap time. -/
inductive GoErr
  | pq (code : String)
  | sqlNoRows
  | simple (s : String)
  | wrap (s : String) (inner : GoErr)
deriving DecidableEq, Repr

/-- `err.Error()`: the rendered message of an error value. -/
def GoErr.msg : GoErr → String
  | .pq code => "pq: SQLSTATE " ++ code
  | .sqlNoRows => "sql: no rows in result set"
  | .simple s => s
  | .wrap s _ => s

/-- `fmt.Errorf("<pre>: %w", err)`. -/
def goWrap (pre : String) (e : GoErr) : GoErr :=
  .wrap (pre ++ ": " ++ e.msg) e

/-- `errors.As(err, &pqErr)`: walk the unwrap chain looking for a
`*pq.Error`; yields its SQLSTATE code when found. -/
def errAsPq : GoErr → Option String
  | .pq code => some code
  | .wrap _ inner => errAsPq inner
  | _ => none

/-- `errors.Is(err, sql.ErrNoRows)`: walk the unwrap chain looking for
the `sql.ErrNoRows` sentinel. -/
def errIsNoRows : GoErr → Bool
  | .sqlNoRows => true
  | .wrap _ inner => errIsNoRows inner
  | _ => false

/-- The four-way retry disposition of `internal/database/errors.go`. -/
inductive ErrorClass
  | permanent
  | transient
  | deadlock
  | serialization
deriving DecidableEq, Repr

/-- `ClassifyError` from `internal/database/errors.go:19-43`.  `none`
models a nil `error`.  A `*pq.Error` anywhere in the unwrap chain is
switched on its SQLSTATE code; an unmatched code falls through, like the
Go `switch` without `default`, to the `sql.ErrNoRows` test and then to
the final `return ErrorClassPermanent`. -/
def ClassifyError : Option GoErr → ErrorClass
  | none => .permanent
  | some err =>
    match errAsPq err with
    | some code =>
      if code = "40001" then .serialization
      else if code = "40P01" then .deadlock
      else if code = "55P03" then .transient
      else if code = "23505" ∨ code = "23503" ∨ code = "23502" ∨ code = "23514" then .permanent
      else if errIsNoRows err then .permanent
      else .permanent
    | none =>
      if errIsNoRows err then .permanent
      else .permanent

/-- `IsRetryable` from `internal/database/errors.go:45-50`. -/
def IsRetryable (err : Option GoErr) : Bool :=
  let c := ClassifyError err
  c == .transient || c == .deadlock || c == .serialization

/-- `database.ErrUserNotFound`. -/
def errUserNotFound : GoErr := .simple "user not found"
/-- `database.ErrProductNotFound`. -/
def errProductNotFound : GoErr := .simple "product not found"
/-- `database.ErrOrderNotFound`. -/
def errOrderNotFound : GoErr := .simple "order not found"
/-- `database.ErrInsufficientStock`. -/
def errInsufficientStock : GoErr := .simple "insufficient stock"
/-- `database.ErrOptimisticLockFailed`. -/
def errOptimisticLockFailed : GoErr := .simple "optimistic lock failed"
/-- `database.ErrLockTimeout`. -/
def errLockTimeout : GoErr := .simple "lock timeout"

/-- `database.TxOptions`. `isolationLevel` mirrors `sql.IsolationLevel`
numerically; only `maxRetries` influences the retry control flow. -/
structure TxOptions where
  isolationLevel : Nat
  readOnly : Bool
  maxRetries : Int
deriving DecidableEq, Repr

/-- `database.DefaultTxOptions()` (`sql.LevelReadCommitted = 2`). -/
def DefaultTxOptions : TxOptions := ⟨2, false, 3⟩

/-- The environment a `WithRetry` run interacts with, indexed by attempt
number: the cancellation signal as seen at the pre-attempt check and
during the backoff sleep, the error (if any) of `BeginTx`, of the unit of
work `fn`, of `Rollback` and of `Commit` for that attempt, and the random
jitter draw.  `ctxErr` is the value `ctx.Err()` reports once cancelled. -/
structure RetryEnv where
  cancelBefore : Nat → Bool
  cancelInSleep : Nat → Bool
  ctxErr : GoErr
  beginErr : Nat → Option GoErr
  fnErr : Nat → Option GoErr
  rollbackErr : Nat → Option GoErr
  commitErr : Nat → Option GoErr
  jitterSeed : Nat → Nat

/-- Observable side effects of a `WithRetry` run: how many transactions
were begun, how many times the unit of work ran, and the completed
backoff sleeps (nanoseconds, in order). -/
structure RunStats where
  begins : Nat
  fnCalls : Nat
  sleeps : List Nat
deriving DecidableEq, Repr

/-- `backoff := 50 * time.Millisecond`, in nanoseconds. -/
def baseBackoff : Nat := 50000000

/-- One `for attempt := ...` iteration of `WithRetry`
(`internal/database/tx.go:48-126`) and the iterations after it.
`remaining` counts the iterations left after this one, so `remaining = 0`
iff `attempt == opts.MaxRetries`.  The jitter is
`rand.Int63n(int64(backoff / 4))`, modelled as the seed reduced modulo
`backoff / 4`; a sleep is recorded only when it completes without
cancellation.  Doubling happens after the sleep, as in the source. -/
def withRetryLoop (env : RetryEnv) (maxRetries : Int) (attempt remaining backoff : Nat) :
    Option GoErr × RunStats :=
  if env.cancelBefore attempt then
    (some env.ctxErr, ⟨0, 0, []⟩)
  else
    match env.beginErr attempt with
    | some e => (some (goWrap "begin transaction" e), ⟨1, 0, []⟩)
    | none =>
      match env.fnErr attempt with
      | some e =>
        match env.rollbackErr attempt with
        | some rb =>
          (some (.wrap ("rollback failed: " ++ rb.msg ++ " (original error: " ++ e.msg ++ ")") e),
            ⟨1, 1, []⟩)
        | none =>
          if ClassifyError (some e) = .permanent then
            (some e, ⟨1, 1, []⟩)
          else
            match remaining with
            | 0 =>
              (some (.wrap ("max retries (" ++ toString maxRetries ++ ") exceeded: " ++ e.msg) e),
                ⟨1, 1, []⟩)
            | r + 1 =>
              if env.cancelInSleep attempt then
                (some env.ctxErr, ⟨1, 1, []⟩)
              else
                let sleep := backoff + env.jitterSeed attempt % (backoff / 4)
                let rest := withRetryLoop env maxRetries (attempt + 1) r (backoff * 2)
                (rest.1, ⟨rest.2.begins + 1, rest.2.fnCalls + 1, sleep :: rest.2.sleeps⟩)
      | none =>
        match env.commitErr attempt with
        | some e =>
          if ClassifyError (some e) = .permanent then
            (some (goWrap "commit transaction" e), ⟨1, 1, []⟩)
          else
            match remaining with
            | 0 =>
              (some (.wrap ("max retries (" ++ toString maxRetries ++ ") exceeded on commit: "
                  ++ e.msg) e),
                ⟨1, 1, []⟩)
            | r + 1 =>
              if env.cancelInSleep attempt then
                (some env.ctxErr, ⟨1, 1, []⟩)
              else
                let sleep := backoff + env.jitterSeed attempt % (backoff / 4)
                let rest := withRetryLoop env maxRetries (attempt + 1) r (backoff * 2)
                (rest.1, ⟨rest.2.begins + 1, rest.2.fnCalls + 1, sleep :: rest.2.sleeps⟩)
        | none => (none, ⟨1, 1, []⟩)

/-- `database.WithRetry`.  The Go loop runs `attempt = 0 .. MaxRetries`;
with a negative `MaxRetries` the body never executes and the initial
`lastErr = nil` is returned (every executed iteration returns from inside
the loop, so `lastErr` is only ever returned as that initial `nil`). -/
def WithRetry (env : RetryEnv) (opts : TxOptions) : Option GoErr × RunStats :=
  if opts.maxRetries < 0 then
    (none, ⟨0, 0, []⟩)
  else
    withRetryLoop env opts.maxRetries 0 opts.maxRetries.toNat baseBackoff

/-- An environment with no cancellation, no begin/rollback/commit
failures, a successful unit of work and zero jitter draws. -/
def quietEnv : RetryEnv :=
  ⟨fun _ => false, fun _ => false, .simple "context canceled",
   fun _ => none, fun _ => none, fun _ => none, fun _ => none, fun _ => 0⟩

/-- A `products` row (`internal/models/models.go`); `price` is an exact
scaled decimal modelled as an integer, timestamps are nanosecond counts. -/
structure Product where
  id : Int
  sku : String
  name : String
  description : String
  price : Int
  stockQuantity : Int
  createdAt : Nat
  updatedAt : Nat
  version : Int
deriving DecidableEq, Repr

/-- `SELECT ... FROM products WHERE id = $1`: the row with that id. -/
def findProduct (products : List Product) (productID : Int) : Option Product :=
  products.find? (fun p => p.id == productID)

/-- `store.ReserveStock` (`FOR UPDATE`, blocking): the lock is waited for,
so in this sequential model the row is read once the lock is granted; a
missing row is `ErrProductNotFound`, and stock below the requested
quantity is `ErrInsufficientStock`.  A `SELECT` mutates nothing. -/
def ReserveStock (products : List Product) (productID : Int) (quantity : Int) :
    Except GoErr Product :=
  match findProduct products productID with
  | none => .error errProductNotFound
  | some product =>
    if product.stockQuantity < quantity then .error errInsufficientStock
    else .ok product

/-- `store.ReserveStockNoWait` (`FOR UPDATE NOWAIT`): a row currently
locked by another transaction makes the store raise SQLSTATE `55P03`,
which the function maps to `ErrLockTimeout`; otherwise as `ReserveStock`. -/
def ReserveStockNoWait (lockedIDs : List Int) (products : List Product)
    (productID : Int) (quantity : Int) : Except GoErr Product :=
  match findProduct products productID with
  | none => .error errProductNotFound
  | some product =>
    if lockedIDs.contains productID then .error errLockTimeout
    else if product.stockQuantity < quantity then .error errInsufficientStock
    else .ok product

/-- Row predicate of the guarded decrement:
`WHERE id = $2 AND stock_quantity >= $1`. -/
def decMatch (productID quantity : Int) (p : Product) : Bool :=
  p.id == productID && decide (quantity ≤ p.stockQuantity)

/-- The `UPDATE products SET stock_quantity = stock_quantity - $1,
updated_at = NOW() WHERE id = $2 AND stock_quantity >= $1` statement:
the updated table and the number of rows affected.  The guard keeps
every new quantity non-negative, so the `stock_quantity >= 0` CHECK of
the schema cannot fire. -/
def sqlDecrementRows (now : Nat) (products : List Product) (productID quantity : Int) :
    List Product × Nat :=
  (products.map (fun p =>
      if decMatch productID quantity p then
        { p with stockQuantity := p.stockQuantity - quantity, updatedAt := now }
      else p),
   (products.filter (decMatch productID quantity)).length)

/-- `store.DecrementStock`: zero rows affected means the guard rejected
the decrement and yields `ErrInsufficientStock`. -/
def DecrementStock (now : Nat) (products : List Product) (productID quantity : Int) :
    List Product × Option GoErr :=
  let t := sqlDecrementRows now products productID quantity
  if t.2 = 0 then (t.1, some errInsufficientStock) else (t.1, none)

/-- Row predicate of the optimistic update: `WHERE id = $2 AND version = $3`. -/
def updMatch (productID version : Int) (p : Product) : Bool :=
  p.id == productID && p.version == version

/-- `store.UpdateStockOptimistic`: `UPDATE products SET stock_quantity =
$1, version = version + 1, updated_at = NOW() WHERE id = $2 AND version =
$3`.  If a matched row would receive a negative quantity the schema CHECK
`stock_quantity >= 0` aborts the statement with SQLSTATE `23514` (wrapped
as `update stock: ...`); otherwise zero rows affected yields
`ErrOptimisticLockFailed`.  No `quantity >= requested` test exists here:
the caller supplies the absolute replacement value `newStock`. -/
def UpdateStockOptimistic (now : Nat) (products : List Product)
    (productID : Int) (newStock : Int) (version : Int) :
    List Product × Option GoErr :=
  let matched := products.filter (updMatch productID version)
  if newStock < 0 ∧ matched ≠ [] then
    (products, some (goWrap "update stock" (.pq "23514")))
  else
    let updated := products.map (fun p =>
      if updMatch productID version p then
        { p with stockQuantity := newStock, version := p.version + 1, updatedAt := now }
      else p)
    if matched.length = 0 then (updated, some errOptimisticLockFailed)
    else (updated, none)

/-- `store.OrderCursor` (`internal/store/pagination.go`): the keyset
position `(created_at, id)`.  `createdAt` is the instant in nanoseconds;
`id` is the Go `int64` identifier. -/
structure OrderCursor where
  createdAt : Nat
  id : Int
deriving DecidableEq, Repr

/-- `int64(1<<63 - 1)`, the sentinel identifier of an empty cursor. -/
def maxInt64 : Int := 9223372036854775807

/-- ASCII byte of a decimal digit. -/
def digitByte (d : Nat) : Nat := 48 + d

/-- Decimal ASCII rendering of a natural number, most significant digit
first (`strconv`-style: `0` renders as `"0"`). -/
def natBytes (n : Nat) : List Nat :=
  if n = 0 then [48] else (Nat.digits 10 n).reverse.map digitByte

/-- Decimal ASCII rendering of an `int64` (leading `-` when negative). -/
def intBytes (i : Int) : List Nat :=
  if i < 0 then 45 :: natBytes i.natAbs else natBytes i.toNat

/-- UTF-8 bytes of an ASCII string literal. -/
def strBytes (s : String) : List Nat := s.data.map Char.toNat

/-- `json.Marshal` of an `OrderCursor`: the object keeps struct-field
order with the `created_at` / `id` tags.  The `time.Time` field's JSON
codec is modelled by its round-trip contract — an injective quoted text
rendering of the instant (here its decimal nanosecond count; Go uses
RFC 3339, likewise quoted text inverted exactly by `UnmarshalJSON`). -/
def jsonMarshalCursor (c : OrderCursor) : List Nat :=
  strBytes "\x7b\"created_at\":\"" ++ natBytes c.createdAt
    ++ strBytes "\",\"id\":" ++ intBytes c.id ++ strBytes "\x7d"

/-- Strip an expected byte sequence from the front of the input. -/
def stripPref : List Nat → List Nat → Option (List Nat)
  | [], bs => some bs
  | _ :: _, [] => none
  | p :: ps, b :: bs => if p = b then stripPref ps bs else none

/-- ASCII decimal digit test. -/
def isDigitByte (b : Nat) : Bool := decide (48 ≤ b) && decide (b ≤ 57)

/-- Longest digit run at the front of the input, and the rest. -/
def takeDigits : List Nat → List Nat × List Nat
  | [] => ([], [])
  | b :: bs =>
    if isDigitByte b then
      let t := takeDigits bs
      (b :: t.1, t.2)
    else ([], b :: bs)

/-- Value of a most-significant-first digit-byte run. -/
def digitsVal (l : List Nat) : Nat :=
  l.foldl (fun acc b => acc * 10 + (b - 48)) 0

/-- Parse an optionally `-`-signed decimal integer; yields the value and
the unconsumed rest. -/
def parseSignedInt (bs : List Nat) : Option (Int × List Nat) :=
  if bs.head? = some 45 then
    let t := takeDigits bs.tail
    if t.1.isEmpty then none else some (-(digitsVal t.1 : Int), t.2)
  else
    let t := takeDigits bs
    if t.1.isEmpty then none else some ((digitsVal t.1 : Int), t.2)

/-- `json.Unmarshal` into an `OrderCursor`, modelled on the canonical
shape `jsonMarshalCursor` emits (the library parser accepts the tokens
its own marshaller produced; anything else is a decode error `none`). -/
def jsonUnmarshalCursor (bytes : List Nat) : Option OrderCursor :=
  match stripPref (strBytes "\x7b\"created_at\":\"") bytes with
  | none => none
  | some r1 =>
    let t := takeDigits r1
    if t.1.isEmpty then none
    else
      match stripPref (strBytes "\",\"id\":") t.2 with
      | none => none
      | some r2 =>
        match parseSignedInt r2 with
        | none => none
        | some ir =>
          if ir.2 = [125] then some ⟨digitsVal t.1, ir.1⟩ else none

/-- The URL-safe base64 alphabet of `base64.URLEncoding`. -/
def b64Alphabet : List Char :=
  "ABCDEFGHIJKLMNOPQRSTUVWXYZabcdefghijklmnopqrstuvwxyz0123456789-_".data

/-- Character of a six-bit group. -/
def b64Char (n : Nat) : Char := b64Alphabet.getD n 'A'

/-- Six-bit value of an alphabet character (`none` for a foreign one). -/
def b64Idx (c : Char) : Option Nat := b64Alphabet.indexOf? c

/-- `base64.URLEncoding.EncodeToString` over bytes: three bytes per four
characters, `=`-padded tail. -/
def b64EncodeBytes : List Nat → List Char
  | [] => []
  | [b1] => [b64Char (b1 / 4), b64Char (b1 % 4 * 16), '=', '=']
  | [b1, b2] => [b64Char (b1 / 4), b64Char (b1 % 4 * 16 + b2 / 16), b64Char (b2 % 16 * 4), '=']
  | b1 :: b2 :: b3 :: rest =>
    b64Char (b1 / 4) :: b64Char (b1 % 4 * 16 + b2 / 16) ::
      b64Char (b2 % 16 * 4 + b3 / 64) :: b64Char (b3 % 64) :: b64EncodeBytes rest

/-- `base64.URLEncoding.DecodeString` over characters: four characters
per group, padding only legal in the final group, any character outside
the alphabet (or a length not a multiple of four) is an error. -/
def b64DecodeChars : List Char → Option (List Nat)
  | [] => some []
  | c1 :: c2 :: c3 :: c4 :: rest =>
    if c3 = '=' then
      if c4 = '=' ∧ rest = [] then
        match b64Idx c1, b64Idx c2 with
        | some i1, some i2 => some [i1 * 4 + i2 / 16]
        | _, _ => none
      else none
    else if c4 = '=' then
      if rest = [] then
        match b64Idx c1, b64Idx c2, b64Idx c3 with
        | some i1, some i2, some i3 => some [i1 * 4 + i2 / 16, i2 % 16 * 16 + i3 / 4]
        | _, _, _ => none
      else none
    else
      match b64Idx c1, b64Idx c2, b64Idx c3, b64Idx c4 with
      | some i1, some i2, some i3, some i4 =>
        match b64DecodeChars rest with
        | some bs => some ((i1 * 4 + i2 / 16) :: (i2 % 16 * 16 + i3 / 4) :: (i3 % 4 * 64 + i4) :: bs)
        | none => none
      | _, _, _, _ => none
  | _ => none

/-- `store.EncodeCursor`: serialize, then URL-safe base64.  (The Go
function returns `""` if `json.Marshal` errors; the modelled marshaller
is total, matching `Marshal` on every representable instant.) -/
def EncodeCursor (c : OrderCursor) : String :=
  String.mk (b64EncodeBytes (jsonMarshalCursor c))

/-- `store.DecodeCursor` (`internal/store/pagination.go:302-318`).  An
empty token yields the sentinel `{CreatedAt: time.Now(), ID: 1<<63 - 1}`;
`now` is the clock reading `time.Now()` returns at that moment.
Otherwise base64-decode then unmarshal, surfacing either error. -/
def DecodeCursor (now : Nat) (encoded : String) : Except String OrderCursor :=
  if encoded = "" then
    .ok ⟨now, maxInt64⟩
  else
    match b64DecodeChars encoded.data with
    | none => .error "illegal base64 data"
    | some bytes =>
      match jsonUnmarshalCursor bytes with
      | none => .error "invalid character in cursor json"
      | some c => .ok c

/-- An `orders` row (`internal/models/models.go`). -/
structure OrderRow where
  id : Int
  userId : Int
  orderNumber : String
  status : String
  totalAmount : Int
  createdAt : Nat
  updatedAt : Nat
  version : Int
deriving DecidableEq, Repr

/-- `store.CursorPage` (items, opaque next token, has-more flag). -/
structure CursorPage where
  items : List OrderRow
  nextCursor : String
  hasMore : Bool
deriving DecidableEq, Repr

/-- The SQL composite comparison `(created_at, id) < ($2, $3)`:
lexicographic strict order on the tuple. -/
def tupleLtB (t1 : Nat) (i1 : Int) (t2 : Nat) (i2 : Int) : Bool :=
  decide (t1 < t2) || (t1 == t2 && decide (i1 < i2))

/-- `ORDER BY created_at DESC, id DESC` as a comparator: `a` may precede
`b` when `b`'s tuple is at most `a`'s. -/
def rowDescLe (a b : OrderRow) : Bool :=
  decide (b.createdAt < a.createdAt)
    || (b.createdAt == a.createdAt && decide (b.id ≤ a.id))

/-- Insert a row into a `rowDescLe`-sorted list, keeping it sorted. -/
def insertRow (a : OrderRow) : List OrderRow → List OrderRow
  | [] => [a]
  | b :: l => if rowDescLe a b then a :: b :: l else b :: insertRow a l

/-- Sort rows by `(created_at DESC, id DESC)` (insertion sort; any
comparison sort models the SQL `ORDER BY`). -/
def sortRows : List OrderRow → List OrderRow
  | [] => []
  | a :: l => insertRow a (sortRows l)

/-- Row predicate of the listing query:
`WHERE user_id = $1 AND (created_at, id) < ($2, $3)`. -/
def listMatch (userID : Int) (cur : OrderCursor) (r : OrderRow) : Bool :=
  r.userId == userID && tupleLtB r.createdAt r.id cur.createdAt cur.id

/-- The listing `SELECT` of `ListOrdersCursor` without its `LIMIT`:
matching rows in `(created_at DESC, id DESC)` order. -/
def sqlSelectOrders (rows : List OrderRow) (userID : Int) (cur : OrderCursor) :
    List OrderRow :=
  sortRows (rows.filter (listMatch userID cur))

/-- `store.ListOrdersCursor` (`internal/store/orders.go:211-272`): decode
the token (empty means the `(now, 1<<63-1)` sentinel), fetch `limit + 1`
rows, report `hasMore = len > limit`, trim to `limit`, and derive the
next token from the last returned row when more remain. -/
def ListOrdersCursor (now : Nat) (rows : List OrderRow) (userID : Int)
    (cursor : String) (limit : Nat) : Except String CursorPage :=
  match DecodeCursor now cursor with
  | .error e => .error ("decode cursor: " ++ e)
  | .ok cursorData =>
    let fetched := (sqlSelectOrders rows userID cursorData).take (limit + 1)
    let hasMore := decide (limit < fetched.length)
    let orders := if hasMore then fetched.take limit else fetched
    let nextCursor :=
      if hasMore then
        match orders.getLast? with
        | some lastOrder => EncodeCursor ⟨lastOrder.createdAt, lastOrder.id⟩
        | none => ""
      else ""
    .ok ⟨orders, nextCursor, hasMore⟩

/-- An `order_items` row. -/
structure OrderItemRow where
  id : Int
  orderId : Int
  productId : Int
  quantity : Int
  unitPrice : Int
  subtotal : Int
  createdAt : Nat
deriving DecidableEq, Repr

/-- `store.OrderItemRequest`. -/
structure OrderItemRequest where
  productId : Int
  quantity : Int
deriving DecidableEq, Repr

/-- `store.CreateOrderRequest`. -/
structure CreateOrderRequest where
  userId : Int
  items : List OrderItemRequest
deriving DecidableEq, Repr

/-- The store's visible state for the order workflow: existing user ids,
the three tables, the set of product rows currently row-locked by other
transactions (these make `FOR UPDATE NOWAIT` raise `55P03`), and the
next serial ids. -/
structure DBState where
  users : List Int
  products : List Product
  orders : List OrderRow
  orderItems : List OrderItemRow
  lockedProducts : List Int
  nextOrderId : Int
  nextOrderItemId : Int
deriving Repr

/-- The per-item lock-and-price loop of the `CreateOrder` body
(`internal/store/orders.go:49-73`): `SELECT id, price, stock_quantity
FROM products WHERE id = $1 FOR UPDATE NOWAIT`, then the stock check;
`totalAmount` accumulates `price * quantity` left to right.  A row held
by another transaction surfaces as the `55P03` error wrapped by
`fmt.Errorf("lock product %d: %w", ...)` — unlike `ReserveStockNoWait`,
nothing maps it to `ErrLockTimeout` here. -/
def lockAndPrice (st : DBState) (acc : Int) : List OrderItemRequest → Except GoErr Int
  | [] => .ok acc
  | item :: rest =>
    match findProduct st.products item.productId with
    | none => .error errProductNotFound
    | some product =>
      if st.lockedProducts.contains item.productId then
        .error (goWrap ("lock product " ++ toString item.productId) (.pq "55P03"))
      else if product.stockQuantity < item.quantity then
        .error errInsufficientStock
      else
        lockAndPrice st (acc + product.price * item.quantity) rest

/-- The `INSERT INTO order_items` loop (`internal/store/orders.go:86-97`)
with the schema constraints that can reject a row: `UNIQUE(order_id,
product_id)` (SQLSTATE `23505` on a duplicate product in one order) and
`CHECK (quantity > 0)` (SQLSTATE `23514`).  The captured unit price is
the locked read's price. -/
def insertOrderItems (now : Nat) (st : DBState) (orderId : Int) (nextId : Int)
    (seen : List Int) : List OrderItemRequest → Except GoErr (List OrderItemRow)
  | [] => .ok []
  | item :: rest =>
    if seen.contains item.productId then
      .error (goWrap "create order item" (.pq "23505"))
    else if item.quantity ≤ 0 then
      .error (goWrap "create order item" (.pq "23514"))
    else
      let price := ((findProduct st.products item.productId).map Product.price).getD 0
      match insertOrderItems now st orderId (nextId + 1) (item.productId :: seen) rest with
      | .error e => .error e
      | .ok rows =>
        .ok (⟨nextId, orderId, item.productId, item.quantity, price,
              price * item.quantity, now⟩ :: rows)

/-- The stock-decrement loop of the `CreateOrder` body
(`internal/store/orders.go:99-119`): the same guarded `UPDATE` as
`DecrementStock`, zero rows affected meaning `ErrInsufficientStock`. -/
def decrementAll (now : Nat) (products : List Product) :
    List OrderItemRequest → Except GoErr (List Product)
  | [] => .ok products
  | item :: rest =>
    let t := sqlDecrementRows now products item.productId item.quantity
    if t.2 = 0 then .error errInsufficientStock
    else decrementAll now t.1 rest

/-- The unit of work `CreateOrder` passes to `WithRetry`
(`internal/store/orders.go:34-139`): verify the user, lock and price
every item fail-fast, insert the order (its `CHECK (total_amount >= 0)`
can fire), insert the lines, decrement stock guarded, and re-read the
created order.  Any error rolls the transaction back, so the state is
returned only on success. -/
def CreateOrderTx (now : Nat) (st : DBState) (req : CreateOrderRequest) :
    Except GoErr (DBState × OrderRow) :=
  if !(st.users.contains req.userId) then .error errUserNotFound
  else
    match lockAndPrice st 0 req.items with
    | .error e => .error e
    | .ok totalAmount =>
      if totalAmount < 0 then .error (goWrap "create order" (.pq "23514"))
      else
        let orderId := st.nextOrderId
        let order : OrderRow :=
          ⟨orderId, req.userId, "ORD-" ++ toString now, "pending", totalAmount, now, now, 1⟩
        match insertOrderItems now st orderId st.nextOrderItemId [] req.items with
        | .error e => .error e
        | .ok itemRows =>
          match decrementAll now st.products req.items with
          | .error e => .error e
          | .ok products =>
            .ok ({ st with
                    products := products
                    orders := st.orders ++ [order]
                    orderItems := st.orderItems ++ itemRows
                    nextOrderId := orderId + 1
                    nextOrderItemId := st.nextOrderItemId + itemRows.length },
                 order)

/-- The retry environment `CreateOrder` runs under: attempt `a` executes
the body against the store state `states a` (other transactions may
change it between attempts).  Cancellation, begin/rollback/commit faults
and jitter come from `base`. -/
def createOrderEnv (now : Nat) (req : CreateOrderRequest) (states : Nat → DBState)
    (base : RetryEnv) : RetryEnv :=
  { base with
      fnErr := fun a =>
        match CreateOrderTx now (states a) req with
        | .error e => some e
        | .ok _ => none }

/-- `store.CreateOrder` as observed through the Retrying Executor:
`WithRetry` at `sql.LevelSerializable` (= 6) with `MaxRetries: 3`. -/
def CreateOrder (now : Nat) (req : CreateOrderRequest) (states : Nat → DBState)
    (base : RetryEnv) : Option GoErr × RunStats :=
  WithRetry (createOrderEnv now req states base) ⟨6, false, 3⟩

/-! ## Classification lemmas -/

/-- The classifier collapses to a switch on the unwrapped SQLSTATE code:
the three concurrency codes map to their classes, everything else —
constraint codes, `sql.ErrNoRows`, unrecognized errors — to `permanent`. -/
theorem classify_some (e : GoErr) :
    ClassifyError (some e) =
      match errAsPq e with
      | some code =>
        if code = "40001" then .serialization
        else if code = "40P01" then .deadlock
        else if code = "55P03" then .transient
        else .permanent
      | none => .permanent := by
  unfold ClassifyError
  cases h : errAsPq e <;> simp [h, ite_self]

theorem classify_wrap (s : String) (e : GoErr) :
    ClassifyError (some (.wrap s e)) = ClassifyError (some e) := by
  rw [classify_some, classify_some]
  rfl

theorem errAsPq_eq_none_of_noRows (e : GoErr) (h : errIsNoRows e = true) :
    errAsPq e = none := by
  induction e with
  | pq code => simp [errIsNoRows] at h
  | sqlNoRows => rfl
  | simple s => simp [errIsNoRows] at h
  | wrap s inner ih => exact ih h

/-! ## Retry-loop step lemmas -/

theorem retry_cancelBefore (env : RetryEnv) (m : Int) (a r b : Nat)
    (h : env.cancelBefore a = true) :
    withRetryLoop env m a r b = (some env.ctxErr, ⟨0, 0, []⟩) := by
  rw [withRetryLoop]
  simp [h]

theorem retry_body_permanent (env : RetryEnv) (m : Int) (a r b : Nat) (e : GoErr)
    (hc : env.cancelBefore a = false) (hb : env.beginErr a = none)
    (hf : env.fnErr a = some e) (hr : env.rollbackErr a = none)
    (hcl : ClassifyError (some e) = .permanent) :
    withRetryLoop env m a r b = (some e, ⟨1, 1, []⟩) := by
  rw [withRetryLoop]
  simp [hc, hb, hf, hr, hcl]

theorem retry_body_exhausted (env : RetryEnv) (m : Int) (a b : Nat) (e : GoErr)
    (hc : env.cancelBefore a = false) (hb : env.beginErr a = none)
    (hf : env.fnErr a = some e) (hr : env.rollbackErr a = none)
    (hcl : ClassifyError (some e) ≠ .permanent) :
    withRetryLoop env m a 0 b =
      (some (.wrap ("max retries (" ++ toString m ++ ") exceeded: " ++ e.msg) e),
       ⟨1, 1, []⟩) := by
  rw [withRetryLoop]
  simp [hc, hb, hf, hr, hcl]

theorem retry_body_cancelInSleep (env : RetryEnv) (m : Int) (a r b : Nat) (e : GoErr)
    (hc : env.cancelBefore a = false) (hb : env.beginErr a = none)
    (hf : env.fnErr a = some e) (hr : env.rollbackErr a = none)
    (hcl : ClassifyError (some e) ≠ .permanent) (hs : env.cancelInSleep a = true) :
    withRetryLoop env m a (r + 1) b = (some env.ctxErr, ⟨1, 1, []⟩) := by
  rw [withRetryLoop]
  simp [hc, hb, hf, hr, hcl, hs]

theorem retry_body_retry (env : RetryEnv) (m : Int) (a r b : Nat) (e : GoErr)
    (hc : env.cancelBefore a = false) (hb : env.beginErr a = none)
    (hf : env.fnErr a = some e) (hr : env.rollbackErr a = none)
    (hcl : ClassifyError (some e) ≠ .permanent) (hs : env.cancelInSleep a = false) :
    withRetryLoop env m a (r + 1) b =
      ((withRetryLoop env m (a + 1) r (b * 2)).1,
       ⟨(withRetryLoop env m (a + 1) r (b * 2)).2.begins + 1,
        (withRetryLoop env m (a + 1) r (b * 2)).2.fnCalls + 1,
        (b + env.jitterSeed a % (b / 4)) :: (withRetryLoop env m (a + 1) r (b * 2)).2.sleeps⟩) := by
  conv_lhs => rw [withRetryLoop]
  simp [hc, hb, hf, hr, hcl, hs]

theorem retry_commit_permanent (env : RetryEnv) (m : Int) (a r b : Nat) (e : GoErr)
    (hc : env.cancelBefore a = false) (hb : env.beginErr a = none)
    (hf : env.fnErr a = none) (hco : env.commitErr a = some e)
    (hcl : ClassifyError (some e) = .permanent) :
    withRetryLoop env m a r b = (some (goWrap "commit transaction" e), ⟨1, 1, []⟩) := by
  rw [withRetryLoop]
  simp [hc, hb, hf, hco, hcl]

theorem retry_commit_exhausted (env : RetryEnv) (m : Int) (a b : Nat) (e : GoErr)
    (hc : env.cancelBefore a = false) (hb : env.beginErr a = none)
    (hf : env.fnErr a = none) (hco : env.commitErr a = some e)
    (hcl : ClassifyError (some e) ≠ .permanent) :
    withRetryLoop env m a 0 b =
      (some (.wrap ("max retries (" ++ toString m ++ ") exceeded on commit: " ++ e.msg) e),
       ⟨1, 1, []⟩) := by
  rw [withRetryLoop]
  simp [hc, hb, hf, hco, hcl]

theorem retry_commit_cancelInSleep (env : RetryEnv) (m : Int) (a r b : Nat) (e : GoErr)
    (hc : env.cancelBefore a = false) (hb : env.beginErr a = none)
    (hf : env.fnErr a = none) (hco : env.commitErr a = some e)
    (hcl : ClassifyError (some e) ≠ .permanent) (hs : env.cancelInSleep a = true) :
    withRetryLoop env m a (r + 1) b = (some env.ctxErr, ⟨1, 1, []⟩) := by
  rw [withRetryLoop]
  simp [hc, hb, hf, hco, hcl, hs]

theorem retry_commit_retry (env : RetryEnv) (m : Int) (a r b : Nat) (e : GoErr)
    (hc : env.cancelBefore a = false) (hb : env.beginErr a = none)
    (hf : env.fnErr a = none) (hco : env.commitErr a = some e)
    (hcl : ClassifyError (some e) ≠ .permanent) (hs : env.cancelInSleep a = false) :
    withRetryLoop env m a (r + 1) b =
      ((withRetryLoop env m (a + 1) r (b * 2)).1,
       ⟨(withRetryLoop env m (a + 1) r (b * 2)).2.begins + 1,
        (withRetryLoop env m (a + 1) r (b * 2)).2.fnCalls + 1,
        (b + env.jitterSeed a % (b / 4)) :: (withRetryLoop env m (a + 1) r (b * 2)).2.sleeps⟩) := by
  conv_lhs => rw [withRetryLoop]
  simp [hc, hb, hf, hco, hcl, hs]

/-! ## Claim C5: the error classifier -/

/-- Claim C5: for every error value, `ClassifyError` maps the constraint
codes 23505/23503/23502/23514 and the not-found `sql.ErrNoRows` to
`permanent`, SQLSTATE 55P03 (lock timeout) to `transient`, 40P01
(deadlock) to `deadlock`, 40001 (serialization failure) to
`serialization`, and anything not carrying one of the three concurrency
codes — unrecognized errors included — to `permanent`; `IsRetryable` is
true iff the class is transient, deadlock or serialization (and false on
a nil error). -/
theorem claim_C5_classifier (e : GoErr) :
    (∀ code, errAsPq e = some code →
      code = "23505" ∨ code = "23503" ∨ code = "23502" ∨ code = "23514" →
      ClassifyError (some e) = .permanent) ∧
    (errIsNoRows e = true → ClassifyError (some e) = .permanent) ∧
    (errAsPq e = some "55P03" → ClassifyError (some e) = .transient) ∧
    (errAsPq e = some "40P01" → ClassifyError (some e) = .deadlock) ∧
    (errAsPq e = some "40001" → ClassifyError (some e) = .serialization) ∧
    (errAsPq e ≠ some "40001" → errAsPq e ≠ some "40P01" → errAsPq e ≠ some "55P03" →
      ClassifyError (some e) = .permanent) ∧
    (IsRetryable (some e) = true ↔
      ClassifyError (some e) = .transient ∨ ClassifyError (some e) = .deadlock ∨
        ClassifyError (some e) = .serialization) ∧
    IsRetryable none = false := by
  refine ⟨?_, ?_, ?_, ?_, ?_, ?_, ?_, by decide⟩
  · intro code h hcodes
    rw [classify_some, h]
    rcases hcodes with rfl | rfl | rfl | rfl <;> decide
  · intro h
    rw [classify_some, errAsPq_eq_none_of_noRows e h]
  · intro h
    rw [classify_some, h]
    decide
  · intro h
    rw [classify_some, h]
    decide
  · intro h
    rw [classify_some, h]
    decide
  · intro h1 h2 h3
    rw [classify_some]
    cases h : errAsPq e with
    | none => rfl
    | some code =>
      rw [h] at h1 h2 h3
      simp only [ne_eq, Option.some.injEq] at h1 h2 h3
      simp [h1, h2, h3]
  · cases hcl : ClassifyError (some e) <;> simp [IsRetryable, hcl]

/-- Concrete instances of claim C5's classification table. -/
theorem claim_C5_witness :
    ClassifyError (some (.pq "23505")) = .permanent ∧
    ClassifyError (some .sqlNoRows) = .permanent ∧
    ClassifyError (some (.pq "55P03")) = .transient ∧
    ClassifyError (some (.pq "40P01")) = .deadlock ∧
    ClassifyError (some (.pq "40001")) = .serialization ∧
    ClassifyError (some (.simple "some unrecognized failure")) = .permanent ∧
    IsRetryable (some (.pq "40P01")) = true :=
  ⟨(claim_C5_classifier (.pq "23505")).1 "23505" rfl (Or.inl rfl),
   (claim_C5_classifier .sqlNoRows).2.1 rfl,
   (claim_C5_classifier (.pq "55P03")).2.2.1 rfl,
   (claim_C5_classifier (.pq "40P01")).2.2.2.1 rfl,
   (claim_C5_classifier (.pq "40001")).2.2.2.2.1 rfl,
   (claim_C5_classifier (.simple "some unrecognized failure")).2.2.2.2.2.1
     (by decide) (by decide) (by decide),
   ((claim_C5_classifier (.pq "40P01")).2.2.2.2.2.2.1.mpr
     (Or.inr (Or.inl ((claim_C5_classifier (.pq "40P01")).2.2.2.1 rfl))))⟩

/-! ## Claim C6: the retry policy of WithRetry -/

/-- Claim C6: in every `WithRetry` run, a Permanent-classified body
failure returns immediately without retry or sleep; a retryable failure
with attempts remaining completes one sleep of `backoff` plus a jitter
strictly below `backoff / 4` and re-runs the loop with `backoff`
doubled; exhausted retries return the last error wrapped with the
`max retries (m) exceeded` marker; a commit failure is classified and
retried under exactly the same policy (with its own markers); and the
schedule starts at 50ms (`baseBackoff` nanoseconds). -/
theorem claim_C6_retry_policy (env : RetryEnv) (m : Int) (a r b : Nat) (e : GoErr)
    (hc : env.cancelBefore a = false) (hb : env.beginErr a = none) :
    (env.fnErr a = some e → env.rollbackErr a = none →
      ClassifyError (some e) = .permanent →
      withRetryLoop env m a r b = (some e, ⟨1, 1, []⟩)) ∧
    (env.fnErr a = some e → env.rollbackErr a = none →
      ClassifyError (some e) ≠ .permanent → env.cancelInSleep a = false →
      withRetryLoop env m a (r + 1) b =
        ((withRetryLoop env m (a + 1) r (b * 2)).1,
         ⟨(withRetryLoop env m (a + 1) r (b * 2)).2.begins + 1,
          (withRetryLoop env m (a + 1) r (b * 2)).2.fnCalls + 1,
          (b + env.jitterSeed a % (b / 4)) :: (withRetryLoop env m (a + 1) r (b * 2)).2.sleeps⟩)) ∧
    (4 ≤ b → env.jitterSeed a % (b / 4) < b / 4) ∧
    (env.fnErr a = some e → env.rollbackErr a = none →
      ClassifyError (some e) ≠ .permanent →
      withRetryLoop env m a 0 b =
        (some (.wrap ("max retries (" ++ toString m ++ ") exceeded: " ++ e.msg) e),
         ⟨1, 1, []⟩)) ∧
    (env.fnErr a = none → env.commitErr a = some e →
      ClassifyError (some e) = .permanent →
      withRetryLoop env m a r b = (some (goWrap "commit transaction" e), ⟨1, 1, []⟩)) ∧
    (env.fnErr a = none → env.commitErr a = some e →
      ClassifyError (some e) ≠ .permanent → env.cancelInSleep a = false →
      withRetryLoop env m a (r + 1) b =
        ((withRetryLoop env m (a + 1) r (b * 2)).1,
         ⟨(withRetryLoop env m (a + 1) r (b * 2)).2.begins + 1,
          (withRetryLoop env m (a + 1) r (b * 2)).2.fnCalls + 1,
          (b + env.jitterSeed a % (b / 4)) :: (withRetryLoop env m (a + 1) r (b * 2)).2.sleeps⟩)) ∧
    (env.fnErr a = none → env.commitErr a = some e →
      ClassifyError (some e) ≠ .permanent →
      withRetryLoop env m a 0 b =
        (some (.wrap ("max retries (" ++ toString m ++ ") exceeded on commit: " ++ e.msg) e),
         ⟨1, 1, []⟩)) ∧
    (∀ opts : TxOptions, 0 ≤ opts.maxRetries →
      WithRetry env opts = withRetryLoop env opts.maxRetries 0 opts.maxRetries.toNat 50000000) := by
  refine ⟨fun hf hr hcl => retry_body_permanent env m a r b e hc hb hf hr hcl,
    fun hf hr hcl hs => retry_body_retry env m a r b e hc hb hf hr hcl hs,
    fun h4 => Nat.mod_lt _ (Nat.div_pos h4 (by norm_num)),
    fun hf hr hcl => retry_body_exhausted env m a b e hc hb hf hr hcl,
    fun hf hco hcl => retry_commit_permanent env m a r b e hc hb hf hco hcl,
    fun hf hco hcl hs => retry_commit_retry env m a r b e hc hb hf hco hcl hs,
    fun hf hco hcl => retry_commit_exhausted env m a b e hc hb hf hco hcl,
    fun opts hm => ?_⟩
  rw [WithRetry, if_neg (by omega)]
  rfl

/-- Concrete instance of claim C6: a deadlock-classified commit failure
with no attempts remaining surfaces as the commit-side retries-exhausted
wrapper. -/
theorem claim_C6_witness :
    withRetryLoop { quietEnv with commitErr := fun _ => some (.pq "40P01") } 3 3 0 400000000
      = (some (.wrap ("max retries (3) exceeded on commit: pq: SQLSTATE 40P01") (.pq "40P01")),
         ⟨1, 1, []⟩) := by
  have h := (claim_C6_retry_policy
    { quietEnv with commitErr := fun _ => some (.pq "40P01") }
    3 3 0 400000000 (.pq "40P01") rfl rfl).2.2.2.2.2.2.1 rfl rfl (by decide)
  exact h

/-! ## Claim C9: cancellation wins immediately -/

/-- Claim C9: cancellation is checked before each attempt and during
every backoff sleep; wherever it is observed, `WithRetry` aborts at once
and returns the context's own cancellation error — never a
retries-exhausted wrapper or any other outcome (no further begins, unit
of work runs or completed sleeps happen after the observation). -/
theorem claim_C9_cancellation (env : RetryEnv) (m : Int) (a r b : Nat) (e : GoErr) :
    (env.cancelBefore a = true →
      withRetryLoop env m a r b = (some env.ctxErr, ⟨0, 0, []⟩)) ∧
    (env.cancelBefore a = false → env.beginErr a = none →
      env.fnErr a = some e → env.rollbackErr a = none →
      ClassifyError (some e) ≠ .permanent → env.cancelInSleep a = true →
      withRetryLoop env m a (r + 1) b = (some env.ctxErr, ⟨1, 1, []⟩)) ∧
    (env.cancelBefore a = false → env.beginErr a = none →
      env.fnErr a = none → env.commitErr a = some e →
      ClassifyError (some e) ≠ .permanent → env.cancelInSleep a = true →
      withRetryLoop env m a (r + 1) b = (some env.ctxErr, ⟨1, 1, []⟩)) :=
  ⟨fun h => retry_cancelBefore env m a r b h,
   fun hc hb hf hr hcl hs => retry_body_cancelInSleep env m a r b e hc hb hf hr hcl hs,
   fun hc hb hf hco hcl hs => retry_commit_cancelInSleep env m a r b e hc hb hf hco hcl hs⟩

/-- Concrete instance of claim C9: a run whose context is cancelled
during the first backoff sleep returns the cancellation error itself. -/
theorem claim_C9_witness :
    withRetryLoop
      { quietEnv with
          fnErr := fun _ => some (.pq "40001")
          cancelInSleep := fun _ => true }
      3 0 2 50000000
      = (some (.simple "context canceled"), ⟨1, 1, []⟩) := by
  have h := (claim_C9_cancellation
    { quietEnv with
        fnErr := fun _ => some (.pq "40001")
        cancelInSleep := fun _ => true }
    3 0 1 50000000 (.pq "40001")).2.1 rfl rfl rfl rfl (by decide) rfl
  exact h

/-! ## Claim C10: negative MaxRetries -/

/-- Claim C10: with a strictly negative `MaxRetries` the `for` loop body
of `WithRetry` never executes, so the call reports success (`nil`)
without beginning any transaction, invoking the unit of work, or
sleeping: the initial nil last-error is returned. -/
theorem claim_C10_negative_max_retries (env : RetryEnv) (opts : TxOptions)
    (h : opts.maxRetries < 0) :
    WithRetry env opts = (none, ⟨0, 0, []⟩) := by
  rw [WithRetry, if_pos h]

/-- Concrete instance of claim C10 at `MaxRetries = -1`. -/
theorem claim_C10_witness :
    WithRetry { quietEnv with fnErr := fun _ => some (.pq "40001") } ⟨2, false, -1⟩
      = (none, ⟨0, 0, []⟩) :=
  claim_C10_negative_max_retries _ _ (by decide)

/-! ## Claims C3 and C4: the inventory guards -/

/-- Claim C3: an optimistic stock update against a row whose current
revision no longer matches the supplied one fails with the
`ErrOptimisticLockFailed` (OptimisticConflict) sentinel and leaves the
table — the stored quantity and revision included — unchanged; that
conflict sentinel is a distinct condition from the `ErrProductNotFound`
not-found sentinel reported for a missing row (by `GetProduct`). -/
theorem claim_C3_optimistic_conflict (now : Nat) (products : List Product)
    (productID newStock version : Int) (p : Product)
    (hp : p ∈ products) (hid : p.id = productID) (hver : p.version ≠ version)
    (huniq : ∀ q ∈ products, q.id = productID → q = p) :
    UpdateStockOptimistic now products productID newStock version
      = (products, some errOptimisticLockFailed) ∧
    errOptimisticLockFailed ≠ errProductNotFound := by
  have hmatch : ∀ q ∈ products, updMatch productID version q = false := by
    intro q hq
    unfold updMatch
    by_cases hqid : q.id = productID
    · have : q = p := huniq q hq hqid
      subst this
      simp [hver]
    · simp [hqid]
  have hfil : products.filter (updMatch productID version) = [] :=
    List.filter_eq_nil_iff.mpr (fun q hq => by simp [hmatch q hq])
  have hmap : products.map (fun q =>
      if updMatch productID version q then
        { q with stockQuantity := newStock, version := q.version + 1, updatedAt := now }
      else q) = products := by
    rw [List.map_congr_left (g := fun q => q) (fun q hq => by simp [hmatch q hq]),
      List.map_id']
  refine ⟨?_, by decide⟩
  unfold UpdateStockOptimistic
  rw [hfil]
  simp [hmap]

/-- Concrete instance of claim C3: updating with the stale revision 1
when the stored revision is 2 conflicts and changes nothing. -/
theorem claim_C3_witness :
    UpdateStockOptimistic 7 [⟨1, "SKU-1", "Widget", "", 100, 5, 0, 0, 2⟩] 1 3 1
      = ([⟨1, "SKU-1", "Widget", "", 100, 5, 0, 0, 2⟩], some errOptimisticLockFailed) ∧
    errOptimisticLockFailed ≠ errProductNotFound :=
  claim_C3_optimistic_conflict 7 [⟨1, "SKU-1", "Widget", "", 100, 5, 0, 0, 2⟩] 1 3 1
    ⟨1, "SKU-1", "Widget", "", 100, 5, 0, 0, 2⟩
    (by decide) rfl (by decide) (by decide)

/-- Claim C4 (amended): the three lock-based inventory operations —
blocking reserve, fail-fast reserve and the guarded decrement — check
`quantity >= requested` against the locked or pre-update state before
any mutation and fail with `ErrInsufficientStock` leaving the stored
state unchanged; the optimistic update, by contrast, takes an absolute
replacement stock, performs no such check, and can never return
`ErrInsufficientStock` (an insufficient caller-computed value surfaces
only as the schema's `23514` CHECK error or as a revision conflict). -/
theorem claim_C4_stock_guards (now : Nat) (products : List Product)
    (lockedIDs : List Int) (productID quantity newStock version : Int) :
    (∀ p, findProduct products productID = some p → p.stockQuantity < quantity →
      ReserveStock products productID quantity = .error errInsufficientStock) ∧
    (∀ p, findProduct products productID = some p → lockedIDs.contains productID = false →
      p.stockQuantity < quantity →
      ReserveStockNoWait lockedIDs products productID quantity
        = .error errInsufficientStock) ∧
    ((∀ p ∈ products, p.id = productID → p.stockQuantity < quantity) →
      DecrementStock now products productID quantity
        = (products, some errInsufficientStock)) ∧
    (UpdateStockOptimistic now products productID newStock version).2
      ≠ some errInsufficientStock := by
  refine ⟨?_, ?_, ?_, ?_⟩
  · intro p h hs
    unfold ReserveStock
    rw [h]
    simp [hs]
  · intro p h hl hs
    have hl' : productID ∉ lockedIDs := by simpa using hl
    unfold ReserveStockNoWait
    rw [h]
    simp [hl', hs]
  · intro hall
    have hmatch : ∀ q ∈ products, decMatch productID quantity q = false := by
      intro q hq
      unfold decMatch
      by_cases hqid : q.id = productID
      · have := hall q hq hqid
        simp [hqid, this]
      · simp [hqid]
    have hfil : products.filter (decMatch productID quantity) = [] :=
      List.filter_eq_nil_iff.mpr (fun q hq => by simp [hmatch q hq])
    have hmap : products.map (fun q =>
        if decMatch productID quantity q then
          { q with stockQuantity := q.stockQuantity - quantity, updatedAt := now }
        else q) = products := by
      rw [List.map_congr_left (g := fun q => q) (fun q hq => by simp [hmatch q hq]),
        List.map_id']
    unfold DecrementStock sqlDecrementRows
    simp [hfil, hmap]
  · unfold UpdateStockOptimistic
    dsimp only
    split
    · exact (by decide :
        some (goWrap "update stock" (.pq "23514")) ≠ some errInsufficientStock)
    · split
      · exact (by decide :
          some errOptimisticLockFailed ≠ some errInsufficientStock)
      · exact fun hh => nomatch hh

/-- Concrete instance of claim C4 (amended): the guarded decrement
rejects an over-large quantity with `ErrInsufficientStock` and no
mutation, and the optimistic update never produces that error. -/
theorem claim_C4_witness :
    DecrementStock 7 [⟨1, "SKU-1", "Widget", "", 100, 5, 0, 0, 1⟩] 1 10
      = ([⟨1, "SKU-1", "Widget", "", 100, 5, 0, 0, 1⟩], some errInsufficientStock) ∧
    (UpdateStockOptimistic 7 [⟨1, "SKU-1", "Widget", "", 100, 5, 0, 0, 1⟩] 1 (-5) 1).2
      ≠ some errInsufficientStock :=
  ⟨(claim_C4_stock_guards 7 [⟨1, "SKU-1", "Widget", "", 100, 5, 0, 0, 1⟩] [] 1 10 0 0).2.2.1
      (by decide),
   (claim_C4_stock_guards 7 [⟨1, "SKU-1", "Widget", "", 100, 5, 0, 0, 1⟩] [] 1 10 (-5) 1).2.2.2⟩

/-- Counterexample to claim C4 as stated: `UpdateStockOptimistic` has no
`quantity >= requested` check at all.  A caller reserving 10 units from
a stock of 5 under revision protection supplies the absolute value
`newStock = 5 - 10 = -5`; the call fails with the wrapped `23514`
CHECK-constraint error — not `ErrInsufficientStock` — so the claimed
behaviour of all four operations fails on the fourth. -/
theorem claim_C4_counterexample :
    UpdateStockOptimistic 7 [⟨1, "SKU-1", "Widget", "", 100, 5, 0, 0, 1⟩] 1 (-5) 1
      = ([⟨1, "SKU-1", "Widget", "", 100, 5, 0, 0, 1⟩],
         some (goWrap "update stock" (.pq "23514"))) ∧
    goWrap "update stock" (.pq "23514") ≠ errInsufficientStock := by
  decide

/-! ## Cursor codec lemmas -/

theorem stripPref_append (p r : List Nat) : stripPref p (p ++ r) = some r := by
  induction p with
  | nil => rfl
  | cons b bs ih => simp [stripPref, ih]

theorem takeDigits_append (ds rs : List Nat)
    (hds : ∀ x ∈ ds, isDigitByte x = true)
    (hrs : ∀ b tl, rs = b :: tl → isDigitByte b = false) :
    takeDigits (ds ++ rs) = (ds, rs) := by
  induction ds with
  | nil =>
    cases rs with
    | nil => rfl
    | cons b tl => simp [takeDigits, hrs b tl rfl]
  | cons d tl ih =>
    have hd : isDigitByte d = true := hds d (by simp)
    have htl := ih (fun x hx => hds x (by simp [hx]))
    simp [takeDigits, hd, htl]

theorem natBytes_digits (n : Nat) : ∀ b ∈ natBytes n, isDigitByte b = true := by
  intro b hb
  unfold natBytes at hb
  by_cases h : n = 0
  · simp [h] at hb
    simp [hb, isDigitByte]
  · rw [if_neg h] at hb
    simp only [List.mem_map, List.mem_reverse] at hb
    obtain ⟨d, hd, rfl⟩ := hb
    have : d < 10 := Nat.digits_lt_base (by norm_num) hd
    simp [digitByte, isDigitByte]
    omega

theorem natBytes_ne_nil (n : Nat) : natBytes n ≠ [] := by
  unfold natBytes
  by_cases h : n = 0
  · simp [h]
  · rw [if_neg h]
    simp [Nat.digits_ne_nil_iff_ne_zero, h]

theorem natBytes_cons (n : Nat) :
    ∃ hd tl, natBytes n = hd :: tl ∧ isDigitByte hd = true := by
  cases h : natBytes n with
  | nil => exact absurd h (natBytes_ne_nil n)
  | cons hd tl =>
    exact ⟨hd, tl, rfl, natBytes_digits n hd (by rw [h]; simp)⟩

theorem foldl_digitByte (ds : List Nat) (acc : Nat) :
    ((ds.reverse.map digitByte).foldl (fun a b => a * 10 + (b - 48)) acc)
      = Nat.ofDigits 10 ds + acc * 10 ^ ds.length := by
  induction ds generalizing acc with
  | nil => simp [Nat.ofDigits]
  | cons d tl ih =>
    rw [List.reverse_cons, List.map_append, List.foldl_append]
    simp only [List.map_cons, List.map_nil, List.foldl_cons, List.foldl_nil]
    rw [ih]
    simp only [Nat.ofDigits_cons, digitByte, List.length_cons]
    have h48 : 48 + d - 48 = d := by omega
    rw [h48]
    ring

theorem digitsVal_natBytes (n : Nat) : digitsVal (natBytes n) = n := by
  unfold digitsVal natBytes
  by_cases h : n = 0
  · simp [h]
  · rw [if_neg h, foldl_digitByte]
    simp [Nat.ofDigits_digits]

theorem takeDigits_natBytes_append (n : Nat) (rs : List Nat)
    (hrs : ∀ b tl, rs = b :: tl → isDigitByte b = false) :
    takeDigits (natBytes n ++ rs) = (natBytes n, rs) :=
  takeDigits_append (natBytes n) rs (natBytes_digits n) hrs

theorem bracketByte_not_digit : ∀ b tl, ([125] : List Nat) = b :: tl → isDigitByte b = false := by
  intro b tl h
  injection h with h1 _
  rw [← h1]
  decide

theorem parseSignedInt_intBytes (i : Int) :
    parseSignedInt (intBytes i ++ [125]) = some (i, [125]) := by
  unfold intBytes
  by_cases hneg : i < 0
  · rw [if_pos hneg]
    unfold parseSignedInt
    simp only [List.cons_append, List.head?_cons, List.tail_cons, reduceIte]
    rw [takeDigits_natBytes_append i.natAbs [125] bracketByte_not_digit]
    rw [if_neg (by simp [natBytes_ne_nil])]
    simp only [digitsVal_natBytes, Option.some.injEq, Prod.mk.injEq, and_true]
    omega
  · rw [if_neg hneg]
    unfold parseSignedInt
    obtain ⟨hd, tl, heq, hdig⟩ := natBytes_cons i.toNat
    have hhd : ¬((natBytes i.toNat ++ [125]).head? = some 45) := by
      rw [heq]
      simp only [List.cons_append, List.head?_cons, Option.some.injEq]
      intro hcon
      rw [hcon] at hdig
      simp [isDigitByte] at hdig
    rw [if_neg hhd]
    rw [takeDigits_natBytes_append i.toNat [125] bracketByte_not_digit]
    rw [if_neg (by simp [natBytes_ne_nil])]
    simp only [digitsVal_natBytes, Option.some.injEq, Prod.mk.injEq, and_true]
    omega

/-- The canonical marshal output parses back to the cursor. -/
theorem jsonUnmarshalCursor_marshal (c : OrderCursor) :
    jsonUnmarshalCursor (jsonMarshalCursor c) = some c := by
  have hmidhead : ∀ b tl,
      strBytes "\",\"id\":" ++ (intBytes c.id ++ [125]) = b :: tl →
      isDigitByte b = false := by
    intro b tl h
    rw [show strBytes "\",\"id\":" = 34 :: [44, 34, 105, 100, 34, 58] from by decide] at h
    simp only [List.cons_append] at h
    injection h with h1 _
    rw [← h1]
    decide
  have hpost : strBytes "\x7d" = [125] := by decide
  unfold jsonMarshalCursor jsonUnmarshalCursor
  simp only [List.append_assoc, stripPref_append, hpost,
    takeDigits_natBytes_append c.createdAt _ hmidhead, parseSignedInt_intBytes]
  rw [if_neg (by simp [natBytes_ne_nil])]
  simp [digitsVal_natBytes]

/-! ## Base64 lemmas -/

theorem b64Idx_b64Char_fin : ∀ n : Fin 64, b64Idx (b64Char n.val) = some n.val := by decide

theorem b64Idx_b64Char (n : Nat) (h : n < 64) : b64Idx (b64Char n) = some n :=
  b64Idx_b64Char_fin ⟨n, h⟩

theorem b64Char_ne_pad_fin : ∀ n : Fin 64, b64Char n.val ≠ '=' := by decide

theorem b64Char_ne_pad (n : Nat) (h : n < 64) : b64Char n ≠ '=' :=
  b64Char_ne_pad_fin ⟨n, h⟩

/-- Decoding inverts encoding on byte lists. -/
theorem b64_roundtrip : ∀ bs : List Nat, (∀ b ∈ bs, b < 256) →
    b64DecodeChars (b64EncodeBytes bs) = some bs
  | [], _ => rfl
  | [b1], h => by
    have hb1 : b1 < 256 := h b1 (by simp)
    unfold b64EncodeBytes b64DecodeChars
    rw [if_pos rfl, if_pos ⟨rfl, rfl⟩,
      b64Idx_b64Char (b1 / 4) (by omega), b64Idx_b64Char (b1 % 4 * 16) (by omega)]
    simp only [Option.some.injEq, List.cons.injEq, and_true]
    omega
  | [b1, b2], h => by
    have hb1 : b1 < 256 := h b1 (by simp)
    have hb2 : b2 < 256 := h b2 (by simp)
    unfold b64EncodeBytes b64DecodeChars
    rw [if_neg (b64Char_ne_pad (b2 % 16 * 4) (by omega)), if_pos rfl, if_pos rfl,
      b64Idx_b64Char (b1 / 4) (by omega), b64Idx_b64Char (b1 % 4 * 16 + b2 / 16) (by omega),
      b64Idx_b64Char (b2 % 16 * 4) (by omega)]
    simp only [Option.some.injEq, List.cons.injEq, and_true]
    constructor
    · omega
    · omega
  | b1 :: b2 :: b3 :: rest, h => by
    have hb1 : b1 < 256 := h b1 (by simp)
    have hb2 : b2 < 256 := h b2 (by simp)
    have hb3 : b3 < 256 := h b3 (by simp)
    have ih := b64_roundtrip rest (fun b hb => h b (by simp [hb]))
    unfold b64EncodeBytes b64DecodeChars
    rw [if_neg (b64Char_ne_pad (b2 % 16 * 4 + b3 / 64) (by omega)),
      if_neg (b64Char_ne_pad (b3 % 64) (by omega)),
      b64Idx_b64Char (b1 / 4) (by omega), b64Idx_b64Char (b1 % 4 * 16 + b2 / 16) (by omega),
      b64Idx_b64Char (b2 % 16 * 4 + b3 / 64) (by omega), b64Idx_b64Char (b3 % 64) (by omega),
      ih]
    simp only [Option.some.injEq, List.cons.injEq, and_true]
    refine ⟨by omega, by omega, by omega⟩

theorem b64EncodeBytes_ne_nil (bs : List Nat) (h : bs ≠ []) : b64EncodeBytes bs ≠ [] := by
  match bs with
  | [] => exact absurd rfl h
  | [b1] => simp [b64EncodeBytes]
  | [b1, b2] => simp [b64EncodeBytes]
  | b1 :: b2 :: b3 :: rest => simp [b64EncodeBytes]

theorem jsonMarshalCursor_ne_nil (c : OrderCursor) : jsonMarshalCursor c ≠ [] := by
  unfold jsonMarshalCursor
  simp [strBytes]

theorem jsonMarshalCursor_bytes_lt (c : OrderCursor) :
    ∀ b ∈ jsonMarshalCursor c, b < 256 := by
  intro b hb
  unfold jsonMarshalCursor at hb
  simp only [List.append_assoc, List.mem_append] at hb
  have hdig : ∀ x, isDigitByte x = true → x < 256 := by
    intro x hx
    simp [isDigitByte] at hx
    omega
  rcases hb with hb | hb | hb | hb | hb
  · exact (by decide : ∀ x ∈ strBytes "\x7b\"created_at\":\"", x < 256) b hb
  · exact hdig b (natBytes_digits _ b hb)
  · exact (by decide : ∀ x ∈ strBytes "\",\"id\":", x < 256) b hb
  · unfold intBytes at hb
    by_cases hneg : c.id < 0
    · rw [if_pos hneg] at hb
      rcases List.mem_cons.mp hb with rfl | hb
      · omega
      · exact hdig b (natBytes_digits _ b hb)
    · rw [if_neg hneg] at hb
      exact hdig b (natBytes_digits _ b hb)
  · exact (by decide : ∀ x ∈ strBytes "\x7d", x < 256) b hb

/-! ## Claim C7: pagination round-trip -/

/-- Claim C7: for every pagination position (ordering-key instant,
identifier) — negative identifiers included — decoding the encoding
yields the position back exactly, with no error. -/
theorem claim_C7_cursor_roundtrip (now : Nat) (c : OrderCursor) :
    DecodeCursor now (EncodeCursor c) = .ok c := by
  have hne : b64EncodeBytes (jsonMarshalCursor c) ≠ [] :=
    b64EncodeBytes_ne_nil _ (jsonMarshalCursor_ne_nil c)
  have hs : EncodeCursor c ≠ "" := by
    unfold EncodeCursor
    intro h
    exact hne (by simpa using congrArg String.data h)
  unfold DecodeCursor
  rw [if_neg hs]
  unfold EncodeCursor
  dsimp only
  simp only [b64_roundtrip (jsonMarshalCursor c) (jsonMarshalCursor_bytes_lt c),
    jsonUnmarshalCursor_marshal]

/-! ## Claim C2: the empty-token sentinel -/

/-- Claim C2 (amended): an absent/empty token decodes to the sentinel
position whose ordering key is the decode-time clock reading
(`time.Now()`) and whose identifier is the maximum `int64`
(`1<<63 - 1`); the first page's strictly-less range query therefore
excludes no row whose ordering key is strictly earlier than the decode
instant, or equal to it with an identifier below `1<<63 - 1`. -/
theorem claim_C2_sentinel (now t : Nat) (i : Int)
    (h : t < now ∨ (t = now ∧ i < maxInt64)) :
    DecodeCursor now "" = .ok ⟨now, maxInt64⟩ ∧
    tupleLtB t i now maxInt64 = true := by
  refine ⟨by simp [DecodeCursor], ?_⟩
  unfold tupleLtB
  rcases h with h | ⟨rfl, h⟩
  · simp [h]
  · simp [h]

/-- Concrete instance of claim C2 (amended). -/
theorem claim_C2_witness :
    DecodeCursor 10 "" = .ok ⟨10, maxInt64⟩ ∧ tupleLtB 9 123 10 maxInt64 = true :=
  claim_C2_sentinel 10 9 123 (Or.inl (by norm_num))

/-- Counterexample to claim C2 as stated: the empty-token sentinel's
ordering key is the decode-time clock reading `time.Now()`, not a
maximum ordering key, so the first page's strictly-less query does
exclude rows — here, with the clock at 5, a matching row created at 6 is
invisible to the first page. -/
theorem claim_C2_counterexample :
    DecodeCursor 5 "" = .ok ⟨5, maxInt64⟩ ∧
    tupleLtB 6 0 5 maxInt64 = false ∧
    listMatch 1 ⟨5, maxInt64⟩ ⟨0, 1, "ORD-1", "pending", 0, 6, 6, 1⟩ = false ∧
    ListOrdersCursor 5 [⟨0, 1, "ORD-1", "pending", 0, 6, 6, 1⟩] 1 "" 10
      = .ok ⟨[], "", false⟩ :=
  ⟨rfl, by decide, by decide, rfl⟩

/-! ## Sorting lemmas for the listing query -/

theorem length_insertRow (a : OrderRow) (l : List OrderRow) :
    (insertRow a l).length = l.length + 1 := by
  induction l with
  | nil => rfl
  | cons b tl ih =>
    unfold insertRow
    by_cases h : rowDescLe a b
    · simp [h]
    · simp [h, ih]

theorem mem_insertRow (x a : OrderRow) (l : List OrderRow) :
    x ∈ insertRow a l ↔ x = a ∨ x ∈ l := by
  induction l with
  | nil => simp [insertRow]
  | cons b tl ih =>
    unfold insertRow
    by_cases h : rowDescLe a b
    · simp [h]
    · simp [h, ih]
      tauto

theorem length_sortRows (l : List OrderRow) : (sortRows l).length = l.length := by
  induction l with
  | nil => rfl
  | cons a tl ih => simp [sortRows, length_insertRow, ih]

theorem mem_sortRows (x : OrderRow) (l : List OrderRow) : x ∈ sortRows l ↔ x ∈ l := by
  induction l with
  | nil => simp [sortRows]
  | cons a tl ih => simp [sortRows, mem_insertRow, ih]

theorem rowDescLe_total (a b : OrderRow) : rowDescLe a b = true ∨ rowDescLe b a = true := by
  simp only [rowDescLe, Bool.or_eq_true, Bool.and_eq_true, decide_eq_true_eq, beq_iff_eq]
  omega

theorem rowDescLe_trans (a b c : OrderRow)
    (hab : rowDescLe a b = true) (hbc : rowDescLe b c = true) : rowDescLe a c = true := by
  simp only [rowDescLe, Bool.or_eq_true, Bool.and_eq_true, decide_eq_true_eq, beq_iff_eq]
      at hab hbc ⊢
  omega

theorem pairwise_insertRow (a : OrderRow) (l : List OrderRow)
    (hl : l.Pairwise (fun x y => rowDescLe x y = true)) :
    (insertRow a l).Pairwise (fun x y => rowDescLe x y = true) := by
  induction l with
  | nil => simp [insertRow]
  | cons b tl ih =>
    rw [List.pairwise_cons] at hl
    unfold insertRow
    by_cases h : rowDescLe a b
    · rw [if_pos h]
      refine List.Pairwise.cons ?_ (List.Pairwise.cons hl.1 hl.2)
      intro y hy
      rcases List.mem_cons.mp hy with rfl | hy
      · exact h
      · exact rowDescLe_trans a b y h (hl.1 y hy)
    · rw [if_neg h]
      refine List.Pairwise.cons ?_ (ih hl.2)
      intro y hy
      rcases (mem_insertRow y a tl).mp hy with hya | hy
      · subst hya
        rcases rowDescLe_total y b with hab | hba
        · exact absurd hab h
        · exact hba
      · exact hl.1 y hy

theorem sorted_sortRows (l : List OrderRow) :
    (sortRows l).Pairwise (fun x y => rowDescLe x y = true) := by
  induction l with
  | nil => simp [sortRows]
  | cons a tl ih => exact pairwise_insertRow a (sortRows tl) ih

/-! ## Claim C8: the cursor listing -/

/-- Claim C8: a listing call that decodes its token to position `cur`
returns only rows of the requested user whose `(created_at, id)` tuple is
strictly less than `cur`; it fetches at most `limit + 1` rows, returns at
most `limit` of them in `(created_at DESC, id DESC)` order, reports
`hasMore` exactly when more than `limit` rows match, and, when more rows
remain, derives the next token from the last returned row. -/
theorem claim_C8_listing (now : Nat) (rows : List OrderRow) (userID : Int)
    (cursor : String) (limit : Nat) (cur : OrderCursor) (page : CursorPage)
    (hdec : DecodeCursor now cursor = .ok cur)
    (hrun : ListOrdersCursor now rows userID cursor limit = .ok page) :
    (∀ r ∈ page.items, r.userId = userID ∧
      tupleLtB r.createdAt r.id cur.createdAt cur.id = true) ∧
    page.items.length ≤ limit ∧
    ((sqlSelectOrders rows userID cur).take (limit + 1)).length ≤ limit + 1 ∧
    (page.hasMore = true ↔ limit < (rows.filter (listMatch userID cur)).length) ∧
    page.items.Pairwise (fun a b => rowDescLe a b = true) ∧
    (∀ last, page.hasMore = true → page.items.getLast? = some last →
      page.nextCursor = EncodeCursor ⟨last.createdAt, last.id⟩) := by
  unfold ListOrdersCursor at hrun
  rw [hdec] at hrun
  simp only [Except.ok.injEq] at hrun
  subst hrun
  simp only
  constructor
  · intro r hr
    have hrf : r ∈ (sqlSelectOrders rows userID cur).take (limit + 1) := by
      by_cases hm : decide (limit < ((sqlSelectOrders rows userID cur).take (limit + 1)).length)
        = true
      · rw [if_pos hm] at hr
        exact (List.take_sublist _ _).subset hr
      · rw [if_neg hm] at hr
        exact hr
    have hrs : r ∈ sqlSelectOrders rows userID cur := (List.take_sublist _ _).subset hrf
    have hrm : r ∈ rows.filter (listMatch userID cur) :=
      (mem_sortRows r _).mp hrs
    have := List.of_mem_filter hrm
    simp only [listMatch, Bool.and_eq_true, beq_iff_eq] at this
    exact this
  refine ⟨?_, by simp, ?_, ?_, ?_⟩
  · by_cases hm : decide (limit < ((sqlSelectOrders rows userID cur).take (limit + 1)).length)
      = true
    · rw [if_pos hm]
      simp
    · rw [if_neg hm]
      simp only [decide_eq_true_eq, Nat.not_lt] at hm
      omega
  · have hlen : ((sqlSelectOrders rows userID cur).take (limit + 1)).length
        = min (limit + 1) ((rows.filter (listMatch userID cur)).length) := by
      rw [List.length_take]
      unfold sqlSelectOrders
      rw [length_sortRows]
    rw [hlen]
    simp only [decide_eq_true_eq]
    omega
  · have hsorted : (sqlSelectOrders rows userID cur).Pairwise
        (fun a b => rowDescLe a b = true) := sorted_sortRows _
    by_cases hm : decide (limit < ((sqlSelectOrders rows userID cur).take (limit + 1)).length)
      = true
    · rw [if_pos hm]
      exact List.Pairwise.sublist ((List.take_sublist _ _).trans (List.take_sublist _ _)) hsorted
    · rw [if_neg hm]
      exact List.Pairwise.sublist (List.take_sublist _ _) hsorted
  · intro last hm hlast
    rw [hm] at hlast ⊢
    simp only [if_true, reduceIte] at hlast ⊢
    rw [hlast]

/-- Concrete instance of claim C8: one matching row under a two-row
limit — every returned row matches the position and the page is within
the limit. -/
theorem claim_C8_witness :
    (∀ r ∈ (⟨[⟨3, 1, "ORD-3", "pending", 0, 7, 7, 1⟩], "", false⟩ : CursorPage).items,
      r.userId = 1 ∧ tupleLtB r.createdAt r.id 50 maxInt64 = true) ∧
    (⟨[⟨3, 1, "ORD-3", "pending", 0, 7, 7, 1⟩], "", false⟩ : CursorPage).items.length ≤ 2 := by
  have h := claim_C8_listing 50
    [⟨3, 1, "ORD-3", "pending", 0, 7, 7, 1⟩, ⟨4, 2, "ORD-4", "pending", 0, 6, 6, 1⟩]
    1 "" 2 ⟨50, maxInt64⟩ ⟨[⟨3, 1, "ORD-3", "pending", 0, 7, 7, 1⟩], "", false⟩ rfl rfl
  exact ⟨h.1, h.2.1⟩

/-! ## Claim C1: which CreateOrder failures are retried -/

/-- Claim C1 (amended): under `WithRetry`, a `CreateOrder` attempt that
fails with insufficient stock (or a not-found sentinel) is classified
Permanent and surfaced to the caller unretried; but a fail-fast lock
failure — the SQLSTATE `55P03` error that the body wraps with
`lock product %d:` — is classified Transient, and the operation is
re-run exactly when the attempt's error classification is not Permanent,
that is, Transient, Deadlock or SerializationConflict. -/
theorem claim_C1_retry_policy (now : Nat) (req : CreateOrderRequest)
    (states : Nat → DBState) (base : RetryEnv) (m : Int) (a r b : Nat) (e : GoErr)
    (hc : base.cancelBefore a = false) (hb : base.beginErr a = none)
    (hr : base.rollbackErr a = none) :
    (ClassifyError (some errInsufficientStock) = .permanent ∧
     ClassifyError (some errUserNotFound) = .permanent ∧
     ClassifyError (some errProductNotFound) = .permanent) ∧
    (∀ s, ClassifyError (some (.wrap s (.pq "55P03"))) = .transient) ∧
    (∀ err, ClassifyError (some err) ≠ .permanent ↔
      (ClassifyError (some err) = .transient ∨ ClassifyError (some err) = .deadlock ∨
       ClassifyError (some err) = .serialization)) ∧
    (CreateOrderTx now (states a) req = .error e →
      ClassifyError (some e) = .permanent →
      withRetryLoop (createOrderEnv now req states base) m a r b = (some e, ⟨1, 1, []⟩)) ∧
    (CreateOrderTx now (states a) req = .error e →
      ClassifyError (some e) ≠ .permanent → base.cancelInSleep a = false →
      withRetryLoop (createOrderEnv now req states base) m a (r + 1) b =
        ((withRetryLoop (createOrderEnv now req states base) m (a + 1) r (b * 2)).1,
         ⟨(withRetryLoop (createOrderEnv now req states base) m (a + 1) r (b * 2)).2.begins + 1,
          (withRetryLoop (createOrderEnv now req states base) m (a + 1) r (b * 2)).2.fnCalls + 1,
          (b + base.jitterSeed a % (b / 4)) ::
            (withRetryLoop (createOrderEnv now req states base) m (a + 1) r (b * 2)).2.sleeps⟩)) := by
  have henv : (createOrderEnv now req states base).cancelBefore = base.cancelBefore := rfl
  have henvb : (createOrderEnv now req states base).beginErr = base.beginErr := rfl
  have henvr : (createOrderEnv now req states base).rollbackErr = base.rollbackErr := rfl
  have henvs : (createOrderEnv now req states base).cancelInSleep = base.cancelInSleep := rfl
  have henvj : (createOrderEnv now req states base).jitterSeed = base.jitterSeed := rfl
  refine ⟨⟨by decide, by decide, by decide⟩, fun s => ?_, fun err => ?_, ?_, ?_⟩
  · rw [classify_wrap]
    decide
  · cases h : ClassifyError (some err) <;> simp
  · intro htx hcl
    have hf : (createOrderEnv now req states base).fnErr a = some e := by
      simp [createOrderEnv, htx]
    exact retry_body_permanent _ m a r b e (henv ▸ hc) (henvb ▸ hb) hf (henvr ▸ hr) hcl
  · intro htx hcl hs
    have hf : (createOrderEnv now req states base).fnErr a = some e := by
      simp [createOrderEnv, htx]
    have := retry_body_retry (createOrderEnv now req states base) m a r b e
      (henv ▸ hc) (henvb ▸ hb) hf (henvr ▸ hr) hcl (henvs ▸ hs)
    rw [this, henvj]

/-- Concrete instance of claim C1 (amended): an attempt failing with
insufficient stock surfaces unretried after exactly one run of the body;
the wrapped lock error classifies Transient. -/
theorem claim_C1_witness :
    withRetryLoop
      (createOrderEnv 99 ⟨1, [⟨2, 20⟩]⟩
        (fun _ => ⟨[1], [⟨2, "S", "N", "", 100, 10, 0, 0, 1⟩], [], [], [], 1, 1⟩) quietEnv)
      3 0 3 50000000
      = (some errInsufficientStock, ⟨1, 1, []⟩) ∧
    ClassifyError (some (.wrap "lock product 2: pq: SQLSTATE 55P03" (.pq "55P03")))
      = .transient := by
  have h := claim_C1_retry_policy 99 ⟨1, [⟨2, 20⟩]⟩
    (fun _ => ⟨[1], [⟨2, "S", "N", "", 100, 10, 0, 0, 1⟩], [], [], [], 1, 1⟩) quietEnv
    3 0 3 50000000 errInsufficientStock rfl rfl rfl
  exact ⟨h.2.2.2.1 rfl (by decide),
    h.2.1 "lock product 2: pq: SQLSTATE 55P03"⟩

/-- Counterexample to claim C1 as stated: with one item row-locked by
another transaction, the `CreateOrder` body fails with the wrapped
`55P03` lock-unavailable error, which classifies Transient (retryable) —
the Retrying Executor runs the body four times (`MaxRetries: 3`) instead
of surfacing the error unretried, and the final error is the
retries-exhausted wrapper, so the operation is re-run for a
classification other than Deadlock/SerializationConflict. -/
theorem claim_C1_counterexample :
    CreateOrderTx 99 ⟨[1], [⟨2, "S", "N", "", 100, 10, 0, 0, 1⟩], [], [], [2], 1, 1⟩
        ⟨1, [⟨2, 1⟩]⟩
      = .error (.wrap "lock product 2: pq: SQLSTATE 55P03" (.pq "55P03")) ∧
    IsRetryable (some (.wrap "lock product 2: pq: SQLSTATE 55P03" (.pq "55P03"))) = true ∧
    (CreateOrder 99 ⟨1, [⟨2, 1⟩]⟩
        (fun _ => ⟨[1], [⟨2, "S", "N", "", 100, 10, 0, 0, 1⟩], [], [], [2], 1, 1⟩)
        quietEnv).2.fnCalls = 4 ∧
    (CreateOrder 99 ⟨1, [⟨2, 1⟩]⟩
        (fun _ => ⟨[1], [⟨2, "S", "N", "", 100, 10, 0, 0, 1⟩], [], [], [2], 1, 1⟩)
        quietEnv).1
      = some (.wrap "max retries (3) exceeded: lock product 2: pq: SQLSTATE 55P03"
          (.wrap "lock product 2: pq: SQLSTATE 55P03" (.pq "55P03"))) := by
  refine ⟨rfl, by decide, by decide, by decide⟩

end GoSqlStore
